import Mathlib

/-!
Shallow embedding of the client-side session / request layer of the
Customer-AI-Agent frontend:
  * `apiRequest` / `fetchWithTimeout`   (src/unnamed/part_003, lib/api.js)
  * `sendMessage` / `formatMessagesForBackend` (src/Frontend/pages/agent.js)
  * `checkAuthStatus` / `logout`        (src/Frontend/context/AuthContext.js)

JavaScript dynamic values are modelled by the inductive `Json`
(`undefined` is a separate constructor since JS distinguishes it from
`null`).  JS numbers are modelled as `Int` (no claim depends on float
formatting).  The asynchronous parts are modelled by making the behaviour
of the underlying `fetch` an explicit parameter (`FetchBehavior`: settles
at a point in time, or never settles), and side effects (navigations,
body reads, console logs) are returned as explicit data.
-/

/-- Model of a JavaScript/JSON value.  `undefined` is the value of an
absent object property. -/
inductive Json where
  | undefined : Json
  | null : Json
  | bool (b : Bool) : Json
  | num (n : Int) : Json
  | str (s : String) : Json
  | arr (elems : List Json) : Json
  | obj (fields : List (String × Json)) : Json
deriving Repr

/-- JS truthiness: `undefined`, `null`, `false`, `0` and `""` are falsy;
every object (also `[]` and `{}`) is truthy. -/
def jsTruthy : Json → Bool
  | .undefined => false
  | .null => false
  | .bool b => b
  | .num n => n != 0
  | .str s => s != ""
  | .arr _ => true
  | .obj _ => true

/-- JS `a || b`. -/
def jsOr (a b : Json) : Json := if jsTruthy a then a else b

/-- JS property read `v.k`: a missing key, or a read on a non-object,
yields `undefined`. -/
def jsField (v : Json) (k : String) : Json :=
  match v with
  | .obj fields =>
    match fields.find? (fun p => p.1 == k) with
    | some p => p.2
    | none => .undefined
  | _ => .undefined

mutual

/-- JS `String(v)` coercion (as applied by `new Error(v)` to a non-string
argument).  Arrays stringify as their elements joined by commas, with
`null`/`undefined` elements rendered empty; plain objects stringify as
`"[object Object]"`. -/
def jsToString : Json → String
  | .undefined => "undefined"
  | .null => "null"
  | .bool b => if b then "true" else "false"
  | .num n => toString n
  | .str s => s
  | .arr elems => String.intercalate "," (jsArrayElems elems)
  | .obj _ => "[object Object]"

/-- Element-wise stringification used by JS `Array.prototype.join`:
`null` and `undefined` become the empty string. -/
def jsArrayElems : List Json → List String
  | [] => []
  | .null :: rest => "" :: jsArrayElems rest
  | .undefined :: rest => "" :: jsArrayElems rest
  | e :: rest => jsToString e :: jsArrayElems rest

end

/-- The characters removed by JS `String.prototype.trim` (ECMAScript
WhiteSpace and LineTerminator code points). -/
def isJsWhitespace (c : Char) : Bool :=
  let n := c.toNat
  n == 0x9 || n == 0xA || n == 0xB || n == 0xC || n == 0xD || n == 0x20 ||
  n == 0xA0 || n == 0x1680 || (0x2000 ≤ n && n ≤ 0x200A) ||
  n == 0x2028 || n == 0x2029 || n == 0x202F || n == 0x205F ||
  n == 0x3000 || n == 0xFEFF

/-- JS `s.trim()`. -/
def jsTrim (s : String) : String :=
  ⟨((s.data.dropWhile isJsWhitespace).reverse.dropWhile isJsWhitespace).reverse⟩

/-- Hex digit (uppercase), for percent-encoding. -/
def hexDigit (n : Nat) : Char :=
  if n < 10 then Char.ofNat (48 + n) else Char.ofNat (55 + n)

/-- Percent-encoding `%XX` of one byte. -/
def percentByte (b : Nat) : String :=
  ⟨['%', hexDigit (b / 16 % 16), hexDigit (b % 16)]⟩

/-- Characters that ECMAScript `encodeURIComponent` leaves unescaped:
ASCII alphanumerics and `- _ . ! ~ * ' ( )`. -/
def isUriUnescaped (c : Char) : Bool :=
  (c.isAlphanum && c.toNat < 128) ||
  c == '-' || c == '_' || c == '.' || c == '!' || c == '~' || c == '*' ||
  c == '\'' || c == '(' || c == ')'

/-- UTF-8 encoding of a code point, as a list of byte values. -/
def utf8Bytes (n : Nat) : List Nat :=
  if n < 0x80 then [n]
  else if n < 0x800 then [0xC0 + n / 64, 0x80 + n % 64]
  else if n < 0x10000 then [0xE0 + n / 4096, 0x80 + n / 64 % 64, 0x80 + n % 64]
  else [0xF0 + n / 262144, 0x80 + n / 4096 % 64, 0x80 + n / 64 % 64, 0x80 + n % 64]

/-- ECMAScript `encodeURIComponent`: every character outside the
unescaped set is replaced by the percent-encoding of its UTF-8 bytes. -/
def encodeURIComponent (s : String) : String :=
  s.data.foldl
    (fun acc c =>
      if isUriUnescaped c then acc.push c
      else acc ++ String.join ((utf8Bytes c.toNat).map percentByte))
    ""

/-- How one fetch settles: the response resolves, or the promise rejects
with a network-level error message. -/
inductive FetchSettle where
  | resolved (status : Nat) (statusText : String) (jsonBody : Option Json) : FetchSettle
  | rejected (message : String) : FetchSettle
deriving Repr

/-- Behaviour of the underlying `fetch` call: it settles at time `t`
milliseconds, or it never settles. -/
inductive FetchBehavior where
  | settlesAt (t : Nat) (s : FetchSettle) : FetchBehavior
  | never : FetchBehavior
deriving Repr

/-- A settled HTTP response (`res`): status, status text, and the result
of `res.json()` (`none` = the body is absent or not parseable as JSON). -/
structure Response where
  status : Nat
  statusText : String
  jsonBody : Option Json
deriving Repr

/-- fetch's `res.ok`: status in the inclusive range 200–299. -/
def Response.okB (r : Response) : Bool := 200 ≤ r.status && r.status < 300

/-- Function `fetchWithTimeout` (part_003 lines 31–38): `Promise.race` of the
fetch against a timer that rejects with `'Request timeout'` after
`timeout` ms (default 10000).  The fetch wins the race exactly when it
settles strictly before the timer fires. -/
def fetchWithTimeout (behavior : FetchBehavior) (timeout : Nat := 10000) :
    Except String Response :=
  match behavior with
  | .settlesAt t s =>
    if t < timeout then
      match s with
      | .resolved status statusText jsonBody => .ok ⟨status, statusText, jsonBody⟩
      | .rejected m => .error m
    else .error "Request timeout"
  | .never => .error "Request timeout"

/-- The options object passed to `apiRequest` (the fields the code
reads). -/
structure RequestOptions where
  method : Option String := none
  headers : List (String × String) := []
  body : Option Json := none
deriving Repr

/-- A thrown JS `Error` as `apiRequest` builds them: `message`, and the
optional `status` / `details` properties the code attaches. -/
structure JsError where
  message : String
  status : Option Nat := none
  details : Option Json := none
deriving Repr

/-- Browser environment: `windowPath = some p` means `window` exists and
`window.location.pathname = p`; `none` models a non-browser context. -/
structure Env where
  windowPath : Option String
deriving Repr

/-- Result of one `apiRequest` call: the returned payload or the thrown
error, plus the observable side effects (assignments to
`window.location.href`, and how many times the response body was read
via `res.json()`). -/
structure ApiResult where
  outcome : Except JsError Json
  navigations : List String
  bodyReads : Nat
  sentHeaders : List (String × String)
deriving Repr

/-- Default headers (part_003 lines 11–15): `Content-Type:
application/json` only when a method is given, is non-empty (truthy) and
is not `GET` case-insensitively. -/
def defaultHeaders (options : RequestOptions) : List (String × String) :=
  match options.method with
  | some m => if m != "" && m.toUpper != "GET" then [("Content-Type", "application/json")] else []
  | none => []

/-- Header merge by object spread: options headers override defaults. -/
def mergeHeaders (options : RequestOptions) : List (String × String) :=
  (defaultHeaders options).filter
    (fun p => options.headers.all (fun q => q.1 != p.1)) ++ options.headers

/-- Function `apiRequest` (part_003 lines 9–97).  The fetch behaviour and the
browser environment are explicit parameters; the function returns the
payload / thrown error together with the side effects. -/
def apiRequest (endpoint : String) (options : RequestOptions) (env : Env)
    (behavior : FetchBehavior) : ApiResult :=
  let headers := mergeHeaders options
  match fetchWithTimeout behavior with
  | .error networkErrorMsg =>
    { outcome := .error ⟨"Network error: " ++ networkErrorMsg, none, none⟩
      navigations := [], bodyReads := 0, sentHeaders := headers }
  | .ok res =>
    if res.status == 401 then
      let currentPath := match env.windowPath with
        | some p => p
        | none => ""
      let isOnLoginPage := currentPath == "/login"
      let isAuthCheck := endpoint == "/me" || endpoint == "/validate"
      let navigations :=
        if !isOnLoginPage && !isAuthCheck then
          let redirectUrl := "/login" ++
            (if currentPath != "/" then "?redirect=" ++ encodeURIComponent currentPath else "")
          match env.windowPath with
          | some _ => [redirectUrl]
          | none => []
        else []
      { outcome := .error ⟨"Session expired. Please login again.", some 401, none⟩
        navigations := navigations, bodyReads := 0, sentHeaders := headers }
    else if !res.okB then
      let fallbackMsg := "HTTP " ++ toString res.status ++ ": " ++ res.statusText
      match res.jsonBody with
      | some errorData =>
        let chosen := jsOr (jsField errorData "detail")
          (jsOr (jsField errorData "message")
            (jsOr (jsField errorData "error") (.str fallbackMsg)))
        { outcome := .error ⟨jsToString chosen, some res.status, some errorData⟩
          navigations := [], bodyReads := 1, sentHeaders := headers }
      | none =>
        { outcome := .error ⟨fallbackMsg, some res.status, none⟩
          navigations := [], bodyReads := 1, sentHeaders := headers }
    else
      match res.jsonBody with
      | some payload =>
        { outcome := .ok payload, navigations := [], bodyReads := 1, sentHeaders := headers }
      | none =>
        { outcome := .error ⟨"Invalid JSON response from server", none, none⟩
          navigations := [], bodyReads := 1, sentHeaders := headers }

/-- One entry of the chat history (agent.js): `sender` is `"user"` or
`"agent"`; `text` holds the displayed value (for agent messages, the raw
`reply` field of the response); `orderSummary` is `undefined` when the
message was built without that property. -/
structure Message where
  sender : String
  text : Json
  orderSummary : Json
deriving Repr

/-- Function `formatMessagesForBackend` (agent.js lines 54–58): maps the history
to the wire format, `sender === 'agent'` becoming role `assistant` and
everything else role `user`. -/
def formatMessagesForBackend (messages : List Message) : Json :=
  .arr (messages.map (fun msg =>
    .obj [("role", .str (if msg.sender == "agent" then "assistant" else "user")),
          ("content", msg.text)]))

/-- Result of one `sendMessage` call: the final message history, the
network calls issued (endpoint and options), navigations performed by
the request helper, console log entries, and the final input-field /
loading state. -/
structure ChatResult where
  messages : List Message
  calls : List (String × RequestOptions)
  navigations : List String
  logs : List String
  inputField : String
  loading : Bool
deriving Repr

/-- Function `sendMessage` (agent.js lines 60–96).  The history `messages` is the
component state at call time; the fetch behaviour of the single
`apiRequest` call is an explicit parameter.  Note that
`formatMessagesForBackend` closes over `messages`, the history *before*
the optimistic user append. -/
def sendMessage (input : String) (messages : List Message) (env : Env)
    (behavior : FetchBehavior) : ChatResult :=
  let trimmedInput := jsTrim input
  if trimmedInput == "" then
    { messages := messages, calls := [], navigations := [], logs := []
      inputField := input, loading := false }
  else
    let afterUser := messages ++ [⟨"user", .str trimmedInput, .undefined⟩]
    let options : RequestOptions :=
      { method := some "POST"
        body := some (.obj [("message", .str trimmedInput),
                            ("previous_messages", formatMessagesForBackend messages)]) }
    let api := apiRequest "/agent/" options env behavior
    match api.outcome with
    | .ok response =>
      { messages := afterUser ++
          [⟨"agent", jsField response "reply", jsOr (jsField response "order_summary") .null⟩]
        calls := [("/agent/", options)], navigations := api.navigations
        logs := [], inputField := "", loading := false }
    | .error e =>
      { messages := afterUser ++
          [⟨"agent", .str "Sorry, something went wrong. Please try again later.", .undefined⟩]
        calls := [("/agent/", options)], navigations := api.navigations
        logs := ["API Error: " ++ e.message], inputField := "", loading := false }

/-- SessionStore state (AuthContext.js): `user` is `null` when
unauthenticated, otherwise the stored identity object; `loading` is the
initialization flag. -/
structure AuthState where
  user : Json
  loading : Bool
deriving Repr

/-- Function `checkAuthStatus` (AuthContext.js lines 20–30): ask `/me`; on
success store `{ customer_id }`, on any failure log and store `null`;
the `finally` always clears `loading`.  The universal `catch` is
modelled by the function being total: both match arms produce a state,
nothing escapes. -/
def checkAuthStatus (env : Env) (behavior : FetchBehavior) :
    AuthState × List String :=
  match (apiRequest "/me" {} env behavior).outcome with
  | .ok response =>
    ({ user := .obj [("customer_id", jsField response "customer_id")], loading := false }, [])
  | .error e =>
    ({ user := .null, loading := false }, ["No valid session: " ++ e.message])

/-- Function `logout` (AuthContext.js lines 42–50): best-effort `POST /logout`;
the `catch` only logs, and the `finally` clears the user either way.
The universal `catch` is modelled by totality: no error propagates to
the caller. -/
def logout (st : AuthState) (env : Env) (behavior : FetchBehavior) :
    AuthState × List String :=
  match (apiRequest "/logout" { method := some "POST" } env behavior).outcome with
  | .ok _ => ({ st with user := .null }, [])
  | .error e => ({ st with user := .null }, ["Logout error: " ++ e.message])

/-! ## Theorems -/

/-- C4: a `sendMessage` call whose input trims to the empty string is a
no-op — the history is unchanged and no network call is issued. -/
theorem sendMessage_whitespace_noop (input : String) (messages : List Message)
    (env : Env) (behavior : FetchBehavior) (h : jsTrim input = "") :
    (sendMessage input messages env behavior).messages = messages ∧
    (sendMessage input messages env behavior).calls = [] := by
  constructor <;> simp [sendMessage, h]

/-- C4 witness: `sendMessage "   "` leaves the history unchanged and
issues no call. -/
theorem sendMessage_whitespace_noop_witness :
    (sendMessage "   " [⟨"user", .str "hi", .undefined⟩] ⟨some "/agent"⟩ .never).messages
      = [⟨"user", .str "hi", .undefined⟩] ∧
    (sendMessage "   " [⟨"user", .str "hi", .undefined⟩] ⟨some "/agent"⟩ .never).calls = [] :=
  sendMessage_whitespace_noop "   " [⟨"user", .str "hi", .undefined⟩] ⟨some "/agent"⟩ .never (by decide)

/-- C7: when the `/me` identity check fails with any error, the
SessionStore initialization ends unauthenticated (`user = null`) with
`loading = false`, and the failure is only logged.  `checkAuthStatus`
is a total function (the source's universal `catch`/`finally`), so no
error escapes initialization. -/
theorem checkAuthStatus_failure_unauthenticated (env : Env) (behavior : FetchBehavior)
    (e : JsError) (h : (apiRequest "/me" {} env behavior).outcome = .error e) :
    (checkAuthStatus env behavior).1.user = Json.null ∧
    (checkAuthStatus env behavior).1.loading = false ∧
    (checkAuthStatus env behavior).2 = ["No valid session: " ++ e.message] := by
  refine ⟨?_, ?_, ?_⟩ <;> simp [checkAuthStatus, h]

/-- C7 witness: a never-settling `/me` call ends unauthenticated, not
loading, with the failure logged. -/
theorem checkAuthStatus_failure_unauthenticated_witness :
    (checkAuthStatus ⟨some "/"⟩ .never).1.user = Json.null ∧
    (checkAuthStatus ⟨some "/"⟩ .never).1.loading = false ∧
    (checkAuthStatus ⟨some "/"⟩ .never).2
      = ["No valid session: " ++ "Network error: Request timeout"] :=
  checkAuthStatus_failure_unauthenticated ⟨some "/"⟩ .never
    ⟨"Network error: Request timeout", none, none⟩ rfl

/-- C8: `logout` always ends with `user = null`, whatever the remote
`/logout` call did; when that call fails the failure is logged.
`logout` is a total function returning the new state (the source's
`catch` swallows the error), so a remote failure is never re-thrown. -/
theorem logout_clears_user (st : AuthState) (env : Env) (behavior : FetchBehavior) :
    (logout st env behavior).1.user = Json.null ∧
    ∀ e : JsError,
      (apiRequest "/logout" { method := some "POST" } env behavior).outcome = .error e →
      (logout st env behavior).2 = ["Logout error: " ++ e.message] := by
  constructor
  · unfold logout
    cases hout : (apiRequest "/logout" { method := some "POST" } env behavior).outcome <;>
      simp [hout]
  · intro e he
    simp [logout, he]

/-- C8 witness: a failing remote logout still clears the user and only
logs the failure. -/
theorem logout_clears_user_witness :
    (logout ⟨.obj [("customer_id", .str "C1")], false⟩ ⟨some "/orders"⟩ .never).1.user
      = Json.null ∧
    (logout ⟨.obj [("customer_id", .str "C1")], false⟩ ⟨some "/orders"⟩ .never).2
      = ["Logout error: " ++ "Network error: Request timeout"] :=
  ⟨(logout_clears_user ⟨.obj [("customer_id", .str "C1")], false⟩ ⟨some "/orders"⟩ .never).1,
   (logout_clears_user ⟨.obj [("customer_id", .str "C1")], false⟩ ⟨some "/orders"⟩ .never).2
     ⟨"Network error: Request timeout", none, none⟩ rfl⟩

/-- C10: a 401 response always yields the fixed error
`'Session expired. Please login again.'` with `status = 401` and no
details, for every response body (which is never read:
`bodyReads = 0`). -/
theorem apiRequest_401_fixed_outcome (endpoint : String) (options : RequestOptions)
    (env : Env) (statusText : String) (body : Option Json) (t : Nat) (ht : t < 10000) :
    (apiRequest endpoint options env (.settlesAt t (.resolved 401 statusText body))).outcome
      = .error ⟨"Session expired. Please login again.", some 401, none⟩ ∧
    (apiRequest endpoint options env (.settlesAt t (.resolved 401 statusText body))).bodyReads
      = 0 := by
  have hfetch : fetchWithTimeout (.settlesAt t (.resolved 401 statusText body))
      = .ok ⟨401, statusText, body⟩ := by
    simp [fetchWithTimeout, ht]
  constructor <;> simp [apiRequest, hfetch]

/-- C10 witness: a 401 carrying a JSON body still yields the fixed
message and never reads the body. -/
theorem apiRequest_401_fixed_outcome_witness :
    (apiRequest "/orders" {} ⟨some "/orders"⟩
        (.settlesAt 0 (.resolved 401 "Unauthorized" (some (.obj [("detail", .str "nope")]))))).outcome
      = .error ⟨"Session expired. Please login again.", some 401, none⟩ ∧
    (apiRequest "/orders" {} ⟨some "/orders"⟩
        (.settlesAt 0 (.resolved 401 "Unauthorized" (some (.obj [("detail", .str "nope")]))))).bodyReads
      = 0 :=
  apiRequest_401_fixed_outcome "/orders" {} ⟨some "/orders"⟩ "Unauthorized"
    (some (.obj [("detail", .str "nope")])) 0 (by decide)

/-- C2 counterexample: the run in which the fetch never settles is
*identical* (outcome and all effects) to the run in which the fetch
itself rejects with the message `'Request timeout'` — i.e. expiry of the
10-second timer is surfaced through the same `Network error: `-wrapped
shape as a genuine network failure, not as a distinct TimeoutError
variant. -/
theorem apiRequest_timeout_equals_network_error_run :
    apiRequest "/orders" {} ⟨some "/orders"⟩ .never
      = apiRequest "/orders" {} ⟨some "/orders"⟩ (.settlesAt 0 (.rejected "Request timeout")) ∧
    (apiRequest "/orders" {} ⟨some "/orders"⟩ .never).outcome
      = .error ⟨"Network error: Request timeout", none, none⟩ :=
  ⟨rfl, rfl⟩

/-- C2 (amended): when the fetch does not settle strictly before the
10-second timer (it settles later, or never), the call still settles —
as the error `'Network error: Request timeout'` (the timer's rejection
caught and wrapped by the network-error handler), with no navigation
and no body read. -/
theorem apiRequest_timeout_settles (endpoint : String) (options : RequestOptions)
    (env : Env) (behavior : FetchBehavior)
    (h : behavior = .never ∨ ∃ t s, behavior = .settlesAt t s ∧ 10000 ≤ t) :
    (apiRequest endpoint options env behavior).outcome
      = .error ⟨"Network error: Request timeout", none, none⟩ ∧
    (apiRequest endpoint options env behavior).navigations = [] ∧
    (apiRequest endpoint options env behavior).bodyReads = 0 := by
  rcases h with h | ⟨t, s, h, ht⟩ <;> subst h
  · exact ⟨rfl, rfl, rfl⟩
  · have hfetch : fetchWithTimeout (.settlesAt t s) = .error "Request timeout" := by
      simp [fetchWithTimeout, Nat.not_lt.2 ht]
    refine ⟨?_, ?_, ?_⟩ <;> simp [apiRequest, hfetch]

/-- C2 witness: a never-settling fetch resolves as the wrapped timeout
error rather than pending. -/
theorem apiRequest_timeout_settles_witness :
    (apiRequest "/me" {} ⟨some "/"⟩ .never).outcome
      = .error ⟨"Network error: Request timeout", none, none⟩ ∧
    (apiRequest "/me" {} ⟨some "/"⟩ .never).navigations = [] ∧
    (apiRequest "/me" {} ⟨some "/"⟩ .never).bodyReads = 0 :=
  apiRequest_timeout_settles "/me" {} ⟨some "/"⟩ .never (Or.inl rfl)

/-- C1 counterexample: a 401 received while the current path is `/` (a
non-login path, non-probe endpoint) navigates to plain `"/login"`,
which is not `"/login?redirect=" ++ encodeURIComponent "/"` — the
redirect query parameter is omitted for the root path. -/
theorem apiRequest_root_path_redirect_has_no_param :
    (apiRequest "/orders" {} ⟨some "/"⟩
        (.settlesAt 0 (.resolved 401 "Unauthorized" none))).navigations = ["/login"] ∧
    ("/login" : String) ≠ "/login?redirect=" ++ encodeURIComponent "/" :=
  ⟨rfl, by decide⟩

/-- C1 (amended): on a 401 in a browser context, when the current path
is not `/login` and the endpoint is not `/me` / `/validate`, exactly one
navigation is performed — to `'/login?redirect=' ++
encodeURIComponent path` when the path is not `/`, and to plain
`'/login'` when the path is `/`; and no navigation is ever performed
when already on `/login` or when the endpoint is `/me` or `/validate`. -/
theorem apiRequest_401_navigation (endpoint : String) (options : RequestOptions)
    (path statusText : String) (body : Option Json) (t : Nat) (ht : t < 10000) :
    ((path ≠ "/login" ∧ endpoint ≠ "/me" ∧ endpoint ≠ "/validate") →
      (apiRequest endpoint options ⟨some path⟩
          (.settlesAt t (.resolved 401 statusText body))).navigations
        = [if path = "/" then "/login" else "/login?redirect=" ++ encodeURIComponent path]) ∧
    ((path = "/login" ∨ endpoint = "/me" ∨ endpoint = "/validate") →
      (apiRequest endpoint options ⟨some path⟩
          (.settlesAt t (.resolved 401 statusText body))).navigations = []) := by
  have hfetch : fetchWithTimeout (.settlesAt t (.resolved 401 statusText body))
      = .ok ⟨401, statusText, body⟩ := by
    simp [fetchWithTimeout, ht]
  constructor
  · rintro ⟨h1, h2, h3⟩
    by_cases hp : path = "/"
    · subst hp
      simp [apiRequest, hfetch, h2, h3]
    · simp only [apiRequest, hfetch, h1, h2, h3, hp]
      simp [h1, h2, h3, hp]
      rw [← String.append_assoc]
      congr 1
  · rintro (h | h | h) <;> simp [apiRequest, hfetch, h]

/-- C1 witness: a 401 on `/orders` while at `/orders/OD123` navigates
once, to the login view with the encoded original path; and on the
probe `/me` it never navigates. -/
theorem apiRequest_401_navigation_witness :
    ((("/orders/OD123" : String) ≠ "/login" ∧ ("/orders" : String) ≠ "/me" ∧
        ("/orders" : String) ≠ "/validate") →
      (apiRequest "/orders" {} ⟨some "/orders/OD123"⟩
          (.settlesAt 0 (.resolved 401 "Unauthorized" none))).navigations
        = [if ("/orders/OD123" : String) = "/" then "/login"
           else "/login?redirect=" ++ encodeURIComponent "/orders/OD123"]) ∧
    ((("/orders/OD123" : String) = "/login" ∨ ("/orders" : String) = "/me" ∨
        ("/orders" : String) = "/validate") →
      (apiRequest "/orders" {} ⟨some "/orders/OD123"⟩
          (.settlesAt 0 (.resolved 401 "Unauthorized" none))).navigations = []) :=
  apiRequest_401_navigation "/orders" {} "/orders/OD123" "Unauthorized" none 0 (by decide)

/-- C6: a settled non-401, non-success response yields an error carrying
that status, whose message is the first *truthy* of the body fields
`detail`, `message`, `error` (coerced to a string as `new Error` does),
falling back to `"HTTP <status>: <statusText>"` when the body is absent
or unparseable (or has none of the fields); the raw parsed body is
attached as `details` exactly when present. -/
theorem apiRequest_http_error_shape (endpoint : String) (options : RequestOptions)
    (env : Env) (statusText : String) (status : Nat) (body : Option Json) (t : Nat)
    (ht : t < 10000) (h401 : status ≠ 401) (hok : ¬ (200 ≤ status ∧ status < 300)) :
    (apiRequest endpoint options env (.settlesAt t (.resolved status statusText body))).outcome
      = .error ⟨
          (match body with
           | some errorData =>
             match [jsField errorData "detail", jsField errorData "message",
                    jsField errorData "error"].find? jsTruthy with
             | some v => jsToString v
             | none => "HTTP " ++ toString status ++ ": " ++ statusText
           | none => "HTTP " ++ toString status ++ ": " ++ statusText),
          some status, body⟩ := by
  have hfetch : fetchWithTimeout (.settlesAt t (.resolved status statusText body))
      = .ok ⟨status, statusText, body⟩ := by
    simp [fetchWithTimeout, ht]
  have hokb : Response.okB ⟨status, statusText, body⟩ = false := by
    simp only [Response.okB, Bool.and_eq_false_iff, decide_eq_false_iff_not]
    omega
  cases body with
  | none => simp [apiRequest, hfetch, h401, hokb]
  | some errorData =>
    by_cases hd : jsTruthy (jsField errorData "detail")
    · simp [apiRequest, hfetch, h401, hokb, jsOr, hd, List.find?]
    · by_cases hm : jsTruthy (jsField errorData "message")
      · simp [apiRequest, hfetch, h401, hokb, jsOr, hd, hm, List.find?]
      · by_cases he : jsTruthy (jsField errorData "error")
        · simp [apiRequest, hfetch, h401, hokb, jsOr, hd, hm, he, List.find?]
        · simp [apiRequest, hfetch, h401, hokb, jsOr, hd, hm, he, List.find?, jsToString]

/-- C6 witness: a 500 whose body has an empty `detail` and a `message`
field gets that message; the raw body is attached as details. -/
theorem apiRequest_http_error_shape_witness :
    (apiRequest "/orders" {} ⟨some "/orders"⟩
        (.settlesAt 0 (.resolved 500 "Internal Server Error"
          (some (.obj [("detail", .str ""), ("message", .str "boom")]))))).outcome
      = .error ⟨"boom", some 500,
          some (.obj [("detail", .str ""), ("message", .str "boom")])⟩ := by
  have h := apiRequest_http_error_shape "/orders" {} ⟨some "/orders"⟩
    "Internal Server Error" 500 (some (.obj [("detail", .str ""), ("message", .str "boom")]))
    0 (by decide) (by decide) (by decide)
  simpa using h

/-- C3: a non-whitespace `sendMessage` appends exactly the user message
followed by exactly one agent message, whatever the outcome of the
single `/agent/` call; when that call succeeds, the agent message
carries the response's `reply` and its `order_summary` coerced to
`null` when absent/falsy. -/
theorem sendMessage_appends_user_then_agent (input : String) (messages : List Message)
    (env : Env) (behavior : FetchBehavior) (h : jsTrim input ≠ "") :
    ∃ agentMsg opts,
      (sendMessage input messages env behavior).messages
        = messages ++ [⟨"user", .str (jsTrim input), .undefined⟩, agentMsg] ∧
      agentMsg.sender = "agent" ∧
      (sendMessage input messages env behavior).calls = [("/agent/", opts)] ∧
      ∀ payload, (apiRequest "/agent/" opts env behavior).outcome = .ok payload →
        agentMsg.text = jsField payload "reply" ∧
        agentMsg.orderSummary = jsOr (jsField payload "order_summary") Json.null := by
  have hb : ¬ ((jsTrim input == "") = true) := by simpa using h
  cases hout : (apiRequest "/agent/"
      { method := some "POST"
        body := some (.obj [("message", .str (jsTrim input)),
                            ("previous_messages", formatMessagesForBackend messages)]) }
      env behavior).outcome with
  | ok response =>
    refine ⟨⟨"agent", jsField response "reply", jsOr (jsField response "order_summary") .null⟩,
      { method := some "POST"
        body := some (.obj [("message", .str (jsTrim input)),
                            ("previous_messages", formatMessagesForBackend messages)]) },
      ?_, rfl, ?_, ?_⟩
    · simp [sendMessage, hb, hout]
    · simp [sendMessage, hb, hout]
    · intro payload hp
      rw [hout] at hp
      injection hp with hp
      subst hp
      exact ⟨rfl, rfl⟩
  | error e =>
    refine ⟨⟨"agent", .str "Sorry, something went wrong. Please try again later.", .undefined⟩,
      { method := some "POST"
        body := some (.obj [("message", .str (jsTrim input)),
                            ("previous_messages", formatMessagesForBackend messages)]) },
      ?_, rfl, ?_, ?_⟩
    · simp [sendMessage, hb, hout]
    · simp [sendMessage, hb, hout]
    · intro payload hp
      rw [hout] at hp
      simp at hp

/-- C3 witness: `sendMessage "hello"` against a successful agent
response appends `[user, agent]` with the returned reply and a null
summary. -/
theorem sendMessage_appends_user_then_agent_witness :
    ∃ agentMsg opts,
      (sendMessage "hello" [] ⟨some "/agent"⟩
          (.settlesAt 0 (.resolved 200 "OK"
            (some (.obj [("reply", .str "hi there"), ("order_summary", .null)]))))).messages
        = [] ++ [⟨"user", .str (jsTrim "hello"), .undefined⟩, agentMsg] ∧
      agentMsg.sender = "agent" ∧
      (sendMessage "hello" [] ⟨some "/agent"⟩
          (.settlesAt 0 (.resolved 200 "OK"
            (some (.obj [("reply", .str "hi there"), ("order_summary", .null)]))))).calls
        = [("/agent/", opts)] ∧
      ∀ payload, (apiRequest "/agent/" opts ⟨some "/agent"⟩
          (.settlesAt 0 (.resolved 200 "OK"
            (some (.obj [("reply", .str "hi there"), ("order_summary", .null)]))))).outcome
            = .ok payload →
        agentMsg.text = jsField payload "reply" ∧
        agentMsg.orderSummary = jsOr (jsField payload "order_summary") Json.null :=
  sendMessage_appends_user_then_agent "hello" [] ⟨some "/agent"⟩
    (.settlesAt 0 (.resolved 200 "OK"
      (some (.obj [("reply", .str "hi there"), ("order_summary", .null)])))) (by decide)

/-- C5: a non-whitespace `sendMessage` whose `/agent/` call fails with
any error appends the user message and one agent message whose text is
the fixed apology constant — the same string for every underlying
error, so no part of the error message reaches the history — while the
error message goes only to the console log. -/
theorem sendMessage_failure_fixed_apology (input : String) (messages : List Message)
    (env : Env) (behavior : FetchBehavior) (e : JsError)
    (h : jsTrim input ≠ "")
    (hfail : ∀ opts : RequestOptions,
      (apiRequest "/agent/" opts env behavior).outcome = .error e) :
    (sendMessage input messages env behavior).messages
      = messages ++ [⟨"user", .str (jsTrim input), .undefined⟩,
          ⟨"agent", .str "Sorry, something went wrong. Please try again later.", .undefined⟩] ∧
    (sendMessage input messages env behavior).logs = ["API Error: " ++ e.message] := by
  have hb : ¬ ((jsTrim input == "") = true) := by simpa using h
  constructor <;> simp [sendMessage, hb, hfail]

/-- C5 witness: a simulated network failure (never-settling fetch)
appends `[user, fixed-apology-agent]` and only logs the error. -/
theorem sendMessage_failure_fixed_apology_witness :
    (sendMessage "hello" [] ⟨some "/agent"⟩ .never).messages
      = [] ++ [⟨"user", .str (jsTrim "hello"), .undefined⟩,
          ⟨"agent", .str "Sorry, something went wrong. Please try again later.", .undefined⟩] ∧
    (sendMessage "hello" [] ⟨some "/agent"⟩ .never).logs
      = ["API Error: " ++ "Network error: Request timeout"] :=
  sendMessage_failure_fixed_apology "hello" [] ⟨some "/agent"⟩ .never
    ⟨"Network error: Request timeout", none, none⟩ (by decide) (fun _ => rfl)

/-- Helper: zipping a list with its image under `f` pairs each element
with its own image. -/
theorem zip_map_snd {α β : Type} (f : α → β) (l : List α) :
    ∀ p ∈ l.zip (l.map f), p.2 = f p.1 := by
  induction l with
  | nil => intro p hp; simp at hp
  | cons a tl ih =>
    intro p hp
    simp only [List.map_cons, List.zip_cons_cons, List.mem_cons] at hp
    rcases hp with rfl | hp
    · rfl
    · exact ih p hp

/-- C9: the single `POST /agent/` call of a non-whitespace turn carries
a body whose `message` field is the trimmed input and whose
`previous_messages` field maps the prior history entrywise — sender
`"agent"` to role `"assistant"` and sender `"user"` to role `"user"`,
with `content` equal to the message text. -/
theorem sendMessage_wire_format (input : String) (messages : List Message)
    (env : Env) (behavior : FetchBehavior) (h : jsTrim input ≠ "") :
    ∃ prev : List Json,
      (sendMessage input messages env behavior).calls
        = [("/agent/",
            { method := some "POST"
              body := some (.obj [("message", .str (jsTrim input)),
                                  ("previous_messages", .arr prev)]) })] ∧
      prev.length = messages.length ∧
      ∀ p ∈ messages.zip prev,
        (p.1.sender = "agent" →
          p.2 = .obj [("role", .str "assistant"), ("content", p.1.text)]) ∧
        (p.1.sender = "user" →
          p.2 = .obj [("role", .str "user"), ("content", p.1.text)]) := by
  have hb : ¬ ((jsTrim input == "") = true) := by simpa using h
  refine ⟨messages.map (fun msg =>
      .obj [("role", .str (if msg.sender == "agent" then "assistant" else "user")),
            ("content", msg.text)]), ?_, by simp, ?_⟩
  · cases hout : (apiRequest "/agent/"
        { method := some "POST"
          body := some (.obj [("message", .str (jsTrim input)),
                              ("previous_messages", formatMessagesForBackend messages)]) }
        env behavior).outcome with
    | ok response =>
      simp [sendMessage, hb, hout]
      simp [formatMessagesForBackend]
    | error e =>
      simp [sendMessage, hb, hout]
      simp [formatMessagesForBackend]
  · intro p hp
    have h2 := zip_map_snd _ messages p hp
    constructor
    · intro hs; rw [h2, hs]; rfl
    · intro hs; rw [h2, hs]; rfl

/-- C9 witness: a two-message history is serialized with roles
`user`/`assistant` and the original texts, alongside the new trimmed
message. -/
theorem sendMessage_wire_format_witness :
    ∃ prev : List Json,
      (sendMessage "status?" [⟨"user", .str "hi", .undefined⟩, ⟨"agent", .str "hello", .null⟩]
          ⟨some "/agent"⟩ .never).calls
        = [("/agent/",
            { method := some "POST"
              body := some (.obj [("message", .str (jsTrim "status?")),
                                  ("previous_messages", .arr prev)]) })] ∧
      prev.length
        = ([⟨"user", .str "hi", .undefined⟩, ⟨"agent", .str "hello", .null⟩] : List Message).length ∧
      ∀ p ∈ ([⟨"user", .str "hi", .undefined⟩, ⟨"agent", .str "hello", .null⟩] : List Message).zip prev,
        (p.1.sender = "agent" →
          p.2 = .obj [("role", .str "assistant"), ("content", p.1.text)]) ∧
        (p.1.sender = "user" →
          p.2 = .obj [("role", .str "user"), ("content", p.1.text)]) :=
  sendMessage_wire_format "status?"
    [⟨"user", .str "hi", .undefined⟩, ⟨"agent", .str "hello", .null⟩]
    ⟨some "/agent"⟩ .never (by decide)
